import Mathlib

/-!
Verification development for the decky-plugin-homeassistant repository.

The Python source (src/main.py and its duplicated module variants under
src/lib/) is shallowly embedded below:

* `sanitize_identifier` embeds `utils.sanitize_identifier` / `main.sanitize_identifier`:
  Python `str.lower()` is modelled character-wise by `Char.toLower` and the three
  single-character `str.replace` calls by character maps over the string data.
* `MQTTClient` embeds the mutable state of the Python `MQTTClient` class
  (`client is not None` becomes the boolean field `client`); its methods
  `configure`, `publish` and `disconnect` become state-passing functions.
  The paho transport is an external collaborator: each transport publish is
  modelled by a `TransportOutcome` input (a return code, or an exception),
  and the list of transport calls actually made is returned as the wire trace.
* `HomeAssistantDiscovery` registration methods become the lists of
  `publish_discovery_config` invocations they perform (component and object id;
  the constant JSON descriptor payloads decide nothing in the claims).
* `Plugin` embeds the event-driven reconciler state (`game_state`,
  `download_state`, the enabled-sensors mapping, and the mqtt client);
  `ingest_event` and the nine `_handle_*` methods become state-transition
  functions that also return the wire trace of state publishes.  The
  cancellable `asyncio.sleep` inside `_handle_download_completed` is modelled
  by the `DelayOutcome` input (elapsed vs. cancelled).
-/

/-- Models Python `name.lower()` character-wise. -/
def pyLower (s : String) : String :=
  String.mk (s.data.map Char.toLower)

/-- Models Python `s.replace(old, new)` for single-character old/new. -/
def pyReplace (s : String) (old new : Char) : String :=
  String.mk (s.data.map (fun c => if c = old then new else c))

/-- Embeds `sanitize_identifier` (src/lib/utils.py:17-19, src/main.py:46-48):
`name.lower().replace(" ", "_").replace("-", "_").replace(".", "_")`. -/
def sanitize_identifier (name : String) : String :=
  pyReplace (pyReplace (pyReplace (pyLower name) ' ' '_') '-' '_') '.' '_'

/-- The per-character action of `sanitize_identifier`. -/
def sanitizeChar (c : Char) : Char :=
  if c = ' ' ∨ c = '-' ∨ c = '.' then '_' else Char.toLower c

theorem char_toNat_ofNat_valid (n : Nat) (h : n.isValidChar) :
    (Char.ofNat n).toNat = n := by
  simp only [Char.ofNat, dif_pos h, Char.ofNatAux, Char.toNat, UInt32.toNat]
  simp [BitVec.toNat_ofNatLt]

theorem toLower_toNat (c : Char) :
    (Char.toLower c).toNat =
      if 65 ≤ c.toNat ∧ c.toNat ≤ 90 then c.toNat + 32 else c.toNat := by
  unfold Char.toLower
  split
  · next h =>
    rw [if_pos (by omega)]
    exact char_toNat_ofNat_valid _ (Or.inl (by omega))
  · next h =>
    rw [if_neg (by omega)]

theorem char_eq_of_toNat_eq {a b : Char} (h : a.toNat = b.toNat) : a = b := by
  have := congrArg Char.ofNat h
  rwa [Char.ofNat_toNat, Char.ofNat_toNat] at this

theorem toLower_idem (c : Char) :
    Char.toLower (Char.toLower c) = Char.toLower c := by
  apply char_eq_of_toNat_eq
  rw [toLower_toNat, toLower_toNat c]
  by_cases h : 65 ≤ c.toNat ∧ c.toNat ≤ 90
  · rw [if_pos h, if_neg (by omega)]
  · rw [if_neg h, if_neg h]

theorem toLower_ne_special (c : Char) (d : Char)
    (hd : d.toNat < 65) (h : c ≠ d) : Char.toLower c ≠ d := by
  intro he
  apply h
  apply char_eq_of_toNat_eq
  have := congrArg Char.toNat he
  rw [toLower_toNat] at this
  split at this
  · omega
  · exact this

theorem string_eq_of_data_eq {s t : String} (h : s.data = t.data) : s = t := by
  cases s
  cases t
  exact congrArg String.mk h

theorem sanitizeChar_idem (c : Char) : sanitizeChar (sanitizeChar c) = sanitizeChar c := by
  unfold sanitizeChar
  by_cases h : c = ' ' ∨ c = '-' ∨ c = '.'
  · rw [if_pos h]
    decide
  · rw [if_neg h]
    push_neg at h
    have h1 : Char.toLower c ≠ ' ' := toLower_ne_special c ' ' (by decide) h.1
    have h2 : Char.toLower c ≠ '-' := toLower_ne_special c '-' (by decide) h.2.1
    have h3 : Char.toLower c ≠ '.' := toLower_ne_special c '.' (by decide) h.2.2
    rw [if_neg (by tauto), toLower_idem]

theorem sanitize_identifier_data (name : String) :
    (sanitize_identifier name).data = name.data.map sanitizeChar := by
  unfold sanitize_identifier pyReplace pyLower
  simp only [List.map_map]
  apply List.map_congr_left
  intro c _
  simp only [Function.comp_apply]
  by_cases hs : c = ' '
  · subst hs
    decide
  by_cases hh : c = '-'
  · subst hh
    decide
  by_cases hd : c = '.'
  · subst hd
    decide
  have h1 : Char.toLower c ≠ ' ' := toLower_ne_special c ' ' (by decide) hs
  have h2 : Char.toLower c ≠ '-' := toLower_ne_special c '-' (by decide) hh
  have h3 : Char.toLower c ≠ '.' := toLower_ne_special c '.' (by decide) hd
  unfold sanitizeChar
  rw [if_neg h1, if_neg h2, if_neg h3, if_neg (show ¬(c = ' ' ∨ c = '-' ∨ c = '.') by tauto)]

theorem sanitize_identifier_idem (name : String) :
    sanitize_identifier (sanitize_identifier name) = sanitize_identifier name := by
  apply string_eq_of_data_eq
  rw [sanitize_identifier_data, sanitize_identifier_data, List.map_map]
  apply List.map_congr_left
  intro c _
  exact sanitizeChar_idem c

theorem sanitize_identifier_ne_empty (name : String) (h : name ≠ "") :
    sanitize_identifier name ≠ "" := by
  intro he
  apply h
  have hd := sanitize_identifier_data name
  rw [he] at hd
  have hnil : name.data = [] := List.map_eq_nil_iff.mp hd.symm
  exact string_eq_of_data_eq (by simp [hnil])

/-- Event-driven game state (`Plugin.__init__`, src/main.py:644-648). -/
structure GameState where
  is_running : Bool
  app_id : Option Int
  app_name : Option String
deriving Repr, DecidableEq

/-- Event-driven download state (`Plugin.__init__`, src/main.py:649-654). -/
structure DownloadState where
  downloading : Bool
  progress : Option Int
  rate_mbps : Option Int
  app_id : Option Int
deriving Repr, DecidableEq

/-- The dict built by `Plugin._get_game_state` (src/main.py:920-926). -/
structure GameInfo where
  game_name : Option String
  app_id : Option Int
  is_running : Bool
deriving Repr, DecidableEq

/-- The dict built by `Plugin._get_download_state` (src/main.py:928-935). -/
structure DownloadInfo where
  downloading : Bool
  download_progress : Option Int
  download_rate_mbps : Option Int
  download_app_name : Option String
deriving Repr, DecidableEq

/-- An MQTT message payload: either a literal string (presence messages) or the
`json.dumps` of one of the state dicts, kept structured. -/
inductive Payload where
  | str (s : String)
  | gameJson (g : GameInfo)
  | downloadJson (d : DownloadInfo)
deriving Repr, DecidableEq

/-- One call into the paho transport (`self.client.publish(...)`): the wire traffic. -/
structure WireCall where
  topic : String
  payload : Payload
  retain : Bool
  qos : Nat
deriving Repr, DecidableEq

/-- Behaviour of the external paho transport on one publish call: it returns a
return code (`MQTT_ERR_SUCCESS = 0` meaning accepted), or raises. -/
inductive TransportOutcome where
  | ok (rc : Nat)
  | raises
deriving Repr, DecidableEq

/-- Result of a Python call: a normal value, or a raised exception. -/
inductive PyResult (α : Type) where
  | ok (a : α)
  | exn (msg : String)
deriving Repr

def PyResult.isOk {α : Type} : PyResult α → Bool
  | .ok _ => true
  | .exn _ => false

/-- The raw paho `client.publish` call as seen from `MQTTClient.publish`:
the one operation in the publish path that can raise. -/
def transport_publish (outcome : TransportOutcome) : PyResult Nat :=
  match outcome with
  | .ok rc => .ok rc
  | .raises => .exn "transport error"

/-- State of the Python `MQTTClient` object (src/lib/mqtt_client.py:19-30,
src/main.py:51-62).  `client` is `True` when `self.client is not None`. -/
structure MQTTClient where
  client : Bool
  connected : Bool
  host : String
  port : Int
  username : String
  password : String
  hostname : String
  status_topic : String
deriving Repr, DecidableEq

/-- Embeds `MQTTClient.configure` (src/lib/mqtt_client.py:32-40, src/main.py:64-72).
`STATE_TOPIC_PREFIX = "steamdeck"` (src/lib/constants.py). -/
def MQTTClient.configure (m : MQTTClient) (host : String) (port : Int)
    (username password hostname : String) : MQTTClient :=
  let sh := if hostname ≠ "" then sanitize_identifier hostname else ""
  let m1 := { m with host := host, port := port, username := username,
                     password := password, hostname := sh }
  if sh ≠ "" then
    { m1 with status_topic := "steamdeck/" ++ sh ++ "/status" }
  else
    m1

/-- Embeds `MQTTClient.publish` (src/lib/mqtt_client.py:120-129, src/main.py:153-162):
returns `False` with no transport call when there is no session handle or the
client is not connected; otherwise makes the transport call and converts a
raised exception into `False`.  Also returns the wire trace of transport calls. -/
def MQTTClient.publish (m : MQTTClient) (outcome : TransportOutcome)
    (topic : String) (payload : Payload) (retain : Bool) (qos : Nat) :
    Bool × List WireCall :=
  if m.client && m.connected then
    match transport_publish outcome with
    | .ok rc => (rc == 0, [⟨topic, payload, retain, qos⟩])
    | .exn _ => (false, [⟨topic, payload, retain, qos⟩])
  else
    (false, [])

/-- Embeds `MQTTClient.disconnect` (src/lib/mqtt_client.py:100-118, src/main.py:133-151):
when a session handle exists, best-effort publish "offline" (retained, qos 1)
if connected and a status topic is set, tear down the transport (any exception
swallowed; `teardown_raises` is the collaborator's behaviour there), release
the handle; always clear `connected`. -/
def MQTTClient.disconnect (m : MQTTClient) (outcome : TransportOutcome)
    (teardown_raises : Bool) : MQTTClient × List WireCall :=
  if m.client then
    let pr :=
      if m.connected && (m.status_topic ≠ "" : Bool) then
        MQTTClient.publish m outcome m.status_topic (Payload.str "offline") true 1
      else
        (false, [])
    ({ m with client := false, connected := false }, pr.2)
  else
    ({ m with connected := false }, [])

/-- One `publish_discovery_config` invocation (component kind and object id;
the constant descriptor payload fields are not modelled).  The topic is
`homeassistant/<component>/<hostname>_<object_id>/config`. -/
structure DiscoveryConfig where
  component : String
  object_id : String
deriving Repr, DecidableEq

/-- Embeds `HomeAssistantDiscovery.register_battery_sensors` (src/main.py:449-480). -/
def HomeAssistantDiscovery.register_battery_sensors : List DiscoveryConfig :=
  [⟨"sensor", "battery_percent"⟩, ⟨"binary_sensor", "charging"⟩,
   ⟨"sensor", "battery_time_remaining"⟩]

/-- Embeds `HomeAssistantDiscovery.register_disk_sensors` (src/main.py:482-521). -/
def HomeAssistantDiscovery.register_disk_sensors : List DiscoveryConfig :=
  [⟨"sensor", "disk_free_internal"⟩, ⟨"sensor", "disk_used_internal"⟩,
   ⟨"sensor", "disk_free_sd"⟩, ⟨"binary_sensor", "sd_mounted"⟩]

/-- Embeds `HomeAssistantDiscovery.register_network_sensors` (src/main.py:523-549). -/
def HomeAssistantDiscovery.register_network_sensors : List DiscoveryConfig :=
  [⟨"sensor", "ip_primary"⟩, ⟨"sensor", "ip_wifi"⟩, ⟨"sensor", "ip_ethernet"⟩]

/-- Embeds `HomeAssistantDiscovery.register_game_sensors` (src/main.py:551-579). -/
def HomeAssistantDiscovery.register_game_sensors : List DiscoveryConfig :=
  [⟨"sensor", "current_game"⟩, ⟨"sensor", "current_appid"⟩,
   ⟨"binary_sensor", "game_running"⟩]

/-- Embeds `HomeAssistantDiscovery.register_download_sensors` (src/main.py:581-611). -/
def HomeAssistantDiscovery.register_download_sensors : List DiscoveryConfig :=
  [⟨"binary_sensor", "downloading"⟩, ⟨"sensor", "download_progress"⟩,
   ⟨"sensor", "download_rate"⟩]

/-- Embeds `HomeAssistantDiscovery.register_status_sensor` (src/main.py:613-629,
src/lib/discovery.py:222-238): skipped with a warning when no status topic is
configured. -/
def HomeAssistantDiscovery.register_status_sensor (status_topic : String) :
    List DiscoveryConfig :=
  if status_topic ≠ "" then [⟨"binary_sensor", "status"⟩] else []

/-- Embeds `HomeAssistantDiscovery.publish_state` (src/main.py:437-447):
publishes the JSON state dict at `steamdeck/<hostname>/telemetry/<sensor_type>`
through `MQTTClient.publish` with default qos 0, returning the wire trace. -/
def HomeAssistantDiscovery.publish_state (m : MQTTClient) (outcome : TransportOutcome)
    (hostname : String) (sensor_type : String) (payload : Payload) (retain : Bool) :
    List WireCall :=
  (MQTTClient.publish m outcome ("steamdeck/" ++ hostname ++ "/telemetry/" ++ sensor_type)
    payload retain 0).2

/-- The `enabled_sensors` mapping of the settings dict.  A `none` field models a
key missing from the mapping; `Option.getD · true` is Python `enabled.get(key, True)`. -/
structure EnabledSensors where
  battery : Option Bool
  disk : Option Bool
  network : Option Bool
  game : Option Bool
  download : Option Bool
deriving Repr, DecidableEq

/-- A frontend event dict as read by `Plugin.ingest_event`: `Option` fields model
`event.get(...)` on possibly-missing keys. -/
structure Event where
  type : Option String
  timestamp : Option Int
  app_id : Option Int
  progress : Option Int
  rate : Option Int
deriving Repr, DecidableEq

/-- Outcome of the cancellable `asyncio.sleep(DOWNLOAD_COMPLETION_DELAY_SECONDS)`
inside `Plugin._handle_download_completed`: the grace delay either elapses or the
task is cancelled (the `asyncio.CancelledError` branch). -/
inductive DelayOutcome where
  | elapsed
  | cancelled
deriving Repr, DecidableEq

/-- `DOWNLOAD_COMPLETION_DELAY_SECONDS` (src/main.py:34, src/lib/constants.py). -/
def DOWNLOAD_COMPLETION_DELAY_SECONDS : Nat := 1

/-- State of the Python `Plugin` object relevant to the reconciler:
the owned mqtt client, whether `self.discovery` is set (and its sanitized
hostname), the enabled-sensors mapping, and the two event-driven sub-states. -/
structure Plugin where
  mqtt_client : MQTTClient
  hasDiscovery : Bool
  hostname : String
  enabled_sensors : EnabledSensors
  game_state : GameState
  download_state : DownloadState
deriving Repr, DecidableEq

/-- Embeds `Plugin._get_game_state` (src/main.py:920-926). -/
def Plugin.get_game_state (p : Plugin) : GameInfo :=
  ⟨p.game_state.app_name, p.game_state.app_id, p.game_state.is_running⟩

/-- Embeds `Plugin._get_download_state` (src/main.py:928-935); the source hardcodes
`download_app_name = None`. -/
def Plugin.get_download_state (p : Plugin) : DownloadInfo :=
  ⟨p.download_state.downloading, p.download_state.progress,
   p.download_state.rate_mbps, none⟩

/-- Embeds `Plugin._publish_game_state` (src/main.py:1074-1085): gated on the
client being connected, discovery being initialized, and the game category
being enabled (missing key defaults to enabled); publishes not retained. -/
def Plugin.publish_game_state (p : Plugin) (outcome : TransportOutcome) : List WireCall :=
  if !(p.mqtt_client.connected && p.hasDiscovery) then []
  else if !((p.enabled_sensors.game).getD true) then []
  else HomeAssistantDiscovery.publish_state p.mqtt_client outcome p.hostname "game"
    (Payload.gameJson (Plugin.get_game_state p)) false

/-- Embeds `Plugin._publish_download_state` (src/main.py:1087-1098). -/
def Plugin.publish_download_state (p : Plugin) (outcome : TransportOutcome) : List WireCall :=
  if !(p.mqtt_client.connected && p.hasDiscovery) then []
  else if !((p.enabled_sensors.download).getD true) then []
  else HomeAssistantDiscovery.publish_state p.mqtt_client outcome p.hostname "download"
    (Payload.downloadJson (Plugin.get_download_state p)) false

/-- Embeds `Plugin._handle_game_started` (src/main.py:937-953): unconditionally
accepts the new `app_id` (the already-running case only logs a warning),
clears `app_name`, and publishes. -/
def Plugin.handle_game_started (p : Plugin) (ev : Event) (outcome : TransportOutcome) :
    Plugin × List WireCall :=
  let p1 := { p with game_state := ⟨true, ev.app_id, none⟩ }
  (p1, Plugin.publish_game_state p1 outcome)

/-- Embeds `Plugin._handle_game_stopped` (src/main.py:955-971). -/
def Plugin.handle_game_stopped (p : Plugin) (_ev : Event) (outcome : TransportOutcome) :
    Plugin × List WireCall :=
  let p1 := { p with game_state := ⟨false, none, none⟩ }
  (p1, Plugin.publish_game_state p1 outcome)

/-- Embeds `Plugin._handle_download_started` (src/main.py:973-990). -/
def Plugin.handle_download_started (p : Plugin) (ev : Event) (outcome : TransportOutcome) :
    Plugin × List WireCall :=
  let p1 := { p with download_state := ⟨true, some 0, some 0, ev.app_id⟩ }
  (p1, Plugin.publish_download_state p1 outcome)

/-- Embeds `Plugin._handle_download_progress` (src/main.py:992-1003): forces
`downloading = True` and takes progress/rate from the event unconditionally. -/
def Plugin.handle_download_progress (p : Plugin) (ev : Event) (outcome : TransportOutcome) :
    Plugin × List WireCall :=
  let p1 := { p with download_state :=
    { p.download_state with downloading := true, progress := ev.progress,
                            rate_mbps := ev.rate } }
  (p1, Plugin.publish_download_state p1 outcome)

/-- Embeds `Plugin._handle_download_completed` (src/main.py:1005-1026): sets
`downloading=False, progress=100, rate=0`, publishes once; then, if the grace
delay elapses uncancelled, clears progress/rate/app_id without republishing;
a cancellation skips the clear (the `CancelledError` is caught). -/
def Plugin.handle_download_completed (p : Plugin) (_ev : Event) (delay : DelayOutcome)
    (outcome : TransportOutcome) : Plugin × List WireCall :=
  let p1 := { p with download_state :=
    { p.download_state with downloading := false, progress := some 100,
                            rate_mbps := some 0 } }
  let w := Plugin.publish_download_state p1 outcome
  match delay with
  | .elapsed =>
    ({ p1 with download_state :=
      { p1.download_state with progress := none, rate_mbps := none, app_id := none } }, w)
  | .cancelled => (p1, w)

/-- Embeds `Plugin._handle_download_stopped` (src/main.py:1028-1039). -/
def Plugin.handle_download_stopped (p : Plugin) (_ev : Event) (outcome : TransportOutcome) :
    Plugin × List WireCall :=
  let p1 := { p with download_state := ⟨false, none, none, none⟩ }
  (p1, Plugin.publish_download_state p1 outcome)

/-- Embeds `Plugin._handle_system_suspending` (src/main.py:1041-1052): treats
suspend as an implicit stop for a running game and an active download. -/
def Plugin.handle_system_suspending (p : Plugin) (_ev : Event) (outcome : TransportOutcome) :
    Plugin × List WireCall :=
  let s1 :=
    if p.game_state.is_running then
      let q := { p with game_state := { p.game_state with is_running := false } }
      (q, Plugin.publish_game_state q outcome)
    else
      (p, ([] : List WireCall))
  let s2 :=
    if s1.1.download_state.downloading then
      let q := { s1.1 with download_state :=
        { s1.1.download_state with downloading := false } }
      (q, Plugin.publish_download_state q outcome)
    else
      (s1.1, ([] : List WireCall))
  (s2.1, s1.2 ++ s2.2)

/-- Embeds `Plugin._handle_system_resuming` (src/main.py:1054-1060): no state change. -/
def Plugin.handle_system_resuming (p : Plugin) (_ev : Event) (_outcome : TransportOutcome) :
    Plugin × List WireCall :=
  (p, [])

/-- Embeds `Plugin._handle_system_shutting_down` (src/main.py:1062-1072): sets
`game.is_running=False`, `game.app_id=None`, `download.downloading=False`
(the other download fields are not touched), then publishes both sub-states. -/
def Plugin.handle_system_shutting_down (p : Plugin) (_ev : Event) (outcome : TransportOutcome) :
    Plugin × List WireCall :=
  let p1 := { p with
    game_state := { p.game_state with is_running := false, app_id := none },
    download_state := { p.download_state with downloading := false } }
  (p1, Plugin.publish_game_state p1 outcome ++ Plugin.publish_download_state p1 outcome)

/-- The nine event type tags recognized by `Plugin.ingest_event` (src/main.py:896-913). -/
def recognized_event_types : List String :=
  ["game_started", "game_stopped", "download_started", "download_progress",
   "download_completed", "download_stopped", "system_suspending",
   "system_resuming", "system_shutting_down"]

/-- Embeds `Plugin.ingest_event` (src/main.py:882-918): routes on the event's
type tag; an unrecognized tag is logged and dropped.  The surrounding
`try/except` never fires because every fallible call in the handlers is
already converted to a boolean at the transport wrapper. -/
def Plugin.ingest_event (p : Plugin) (ev : Event) (delay : DelayOutcome)
    (outcome : TransportOutcome) : Plugin × List WireCall :=
  if ev.type = some "game_started" then Plugin.handle_game_started p ev outcome
  else if ev.type = some "game_stopped" then Plugin.handle_game_stopped p ev outcome
  else if ev.type = some "download_started" then Plugin.handle_download_started p ev outcome
  else if ev.type = some "download_progress" then Plugin.handle_download_progress p ev outcome
  else if ev.type = some "download_completed" then
    Plugin.handle_download_completed p ev delay outcome
  else if ev.type = some "download_stopped" then Plugin.handle_download_stopped p ev outcome
  else if ev.type = some "system_suspending" then Plugin.handle_system_suspending p ev outcome
  else if ev.type = some "system_resuming" then Plugin.handle_system_resuming p ev outcome
  else if ev.type = some "system_shutting_down" then
    Plugin.handle_system_shutting_down p ev outcome
  else (p, [])

/-- Embeds `Plugin._register_sensors` (src/main.py:797-820): nothing without a
discovery object; otherwise the status sensor always first, then battery,
disk, network, game, download, each gated by `enabled.get(key, True)`. -/
def Plugin.register_sensors (p : Plugin) : List DiscoveryConfig :=
  if !p.hasDiscovery then []
  else
    HomeAssistantDiscovery.register_status_sensor p.mqtt_client.status_topic
    ++ (if (p.enabled_sensors.battery).getD true then
          HomeAssistantDiscovery.register_battery_sensors else [])
    ++ (if (p.enabled_sensors.disk).getD true then
          HomeAssistantDiscovery.register_disk_sensors else [])
    ++ (if (p.enabled_sensors.network).getD true then
          HomeAssistantDiscovery.register_network_sensors else [])
    ++ (if (p.enabled_sensors.game).getD true then
          HomeAssistantDiscovery.register_game_sensors else [])
    ++ (if (p.enabled_sensors.download).getD true then
          HomeAssistantDiscovery.register_download_sensors else [])

/-- A plugin whose client is connected, discovery initialized, and settings at
their defaults (every enabled-sensors key missing, hence enabled); both
sub-states idle, as after `Plugin.__init__` plus a successful connect. -/
def examplePlugin : Plugin :=
  { mqtt_client :=
      { client := true, connected := true, host := "broker.local", port := 1883,
        username := "", password := "", hostname := "steamdeck",
        status_topic := "steamdeck/steamdeck/status" },
    hasDiscovery := true,
    hostname := "steamdeck",
    enabled_sensors := ⟨none, none, none, none, none⟩,
    game_state := ⟨false, none, none⟩,
    download_state := ⟨false, none, none, none⟩ }

/-- C5: for every string h, sanitization is idempotent
(`sanitize_identifier (sanitize_identifier h) = sanitize_identifier h`) and
`sanitize_identifier` maps every space, hyphen and dot of h to an underscore
and lowercases all other characters. -/
theorem C5_sanitize_idempotent_charwise (h : String) :
    sanitize_identifier (sanitize_identifier h) = sanitize_identifier h ∧
    (sanitize_identifier h).data =
      h.data.map (fun c => if c = ' ' ∨ c = '-' ∨ c = '.' then '_' else Char.toLower c) := by
  exact ⟨sanitize_identifier_idem h, sanitize_identifier_data h⟩

/-- C4: `MQTTClient.publish` returns false with no transport call when the
client is not connected or no session handle exists; when connected it returns
true exactly when the transport accepted the packet (return code 0); and a
raising transport is converted to the boolean result false rather than
propagating an exception. -/
theorem C4_publish_gating_no_raise (m : MQTTClient) (outcome : TransportOutcome)
    (topic : String) (payload : Payload) (retain : Bool) (qos : Nat) :
    ((m.connected = false ∨ m.client = false) →
      MQTTClient.publish m outcome topic payload retain qos = (false, [])) ∧
    (m.client = true → m.connected = true →
      ((MQTTClient.publish m outcome topic payload retain qos).1 = true ↔
        outcome = TransportOutcome.ok 0)) ∧
    (MQTTClient.publish m TransportOutcome.raises topic payload retain qos).1 = false := by
  unfold MQTTClient.publish transport_publish
  refine ⟨?_, ?_, ?_⟩
  · rintro (hc | hc) <;> simp [hc]
  · intro hcl hco
    cases outcome with
    | ok rc => simp [hcl, hco]
    | raises => simp [hcl, hco]
  · by_cases hg : m.client && m.connected <;> simp [hg]

/-- Witness for C4: a disconnected client refuses with no wire traffic, and a
connected client with an accepting transport reports success. -/
theorem C4_publish_gating_no_raise_witness :
    MQTTClient.publish ⟨true, false, "", 1883, "", "", "", ""⟩ (TransportOutcome.ok 0)
      "t" (Payload.str "x") false 0 = (false, []) ∧
    (MQTTClient.publish ⟨true, true, "", 1883, "", "", "", ""⟩ (TransportOutcome.ok 0)
      "t" (Payload.str "x") false 0).1 = true := by
  constructor
  · exact (C4_publish_gating_no_raise _ _ _ _ _ _).1 (Or.inl rfl)
  · exact ((C4_publish_gating_no_raise _ _ _ _ _ _).2.1 rfl rfl).mpr rfl

/-- C8: `MQTTClient.disconnect` always leaves `connected = false` and the
session handle released (`client = false`); on a never-connected client it is a
no-op apart from clearing `connected` (no wire traffic); a second call in any
state changes nothing further and makes no wire traffic; and the result does
not depend on the transport teardown raising (the exception is swallowed). -/
theorem C8_disconnect_safe_idempotent (m : MQTTClient) (o1 o2 : TransportOutcome)
    (t1 t2 : Bool) :
    (MQTTClient.disconnect m o1 t1).1.connected = false ∧
    (MQTTClient.disconnect m o1 t1).1.client = false ∧
    (m.client = false →
      MQTTClient.disconnect m o1 t1 = ({ m with connected := false }, [])) ∧
    MQTTClient.disconnect (MQTTClient.disconnect m o1 t1).1 o2 t2 =
      ((MQTTClient.disconnect m o1 t1).1, []) ∧
    MQTTClient.disconnect m o1 true = MQTTClient.disconnect m o1 false := by
  by_cases hc : m.client <;>
    simp [MQTTClient.disconnect, hc]

/-- Witness for C8: disconnecting a freshly constructed, never-connected client
is a no-op that leaves it disconnected, twice in a row. -/
theorem C8_disconnect_safe_idempotent_witness :
    MQTTClient.disconnect ⟨false, false, "", 1883, "", "", "", ""⟩
      (TransportOutcome.ok 0) false = (⟨false, false, "", 1883, "", "", "", ""⟩, []) := by
  have h := (C8_disconnect_safe_idempotent ⟨false, false, "", 1883, "", "", "", ""⟩
    (TransportOutcome.ok 0) (TransportOutcome.ok 0) false false).2.2.1 rfl
  simpa using h

/-- C10: a `configure` call with an empty hostname overwrites host, port,
username and password and sets the stored sanitized hostname to the empty
string, but leaves the status topic derived by an earlier `configure` with a
non-empty hostname unchanged. -/
theorem C10_configure_empty_hostname_keeps_status_topic
    (m0 : MQTTClient) (h0 : String) (p0 : Int) (u0 pw0 hn0 : String)
    (h1 : String) (p1 : Int) (u1 pw1 : String) (hne : hn0 ≠ "") :
    (MQTTClient.configure (MQTTClient.configure m0 h0 p0 u0 pw0 hn0)
        h1 p1 u1 pw1 "").status_topic
      = (MQTTClient.configure m0 h0 p0 u0 pw0 hn0).status_topic ∧
    (MQTTClient.configure m0 h0 p0 u0 pw0 hn0).status_topic
      = "steamdeck/" ++ sanitize_identifier hn0 ++ "/status" ∧
    (MQTTClient.configure (MQTTClient.configure m0 h0 p0 u0 pw0 hn0)
        h1 p1 u1 pw1 "").host = h1 ∧
    (MQTTClient.configure (MQTTClient.configure m0 h0 p0 u0 pw0 hn0)
        h1 p1 u1 pw1 "").port = p1 ∧
    (MQTTClient.configure (MQTTClient.configure m0 h0 p0 u0 pw0 hn0)
        h1 p1 u1 pw1 "").username = u1 ∧
    (MQTTClient.configure (MQTTClient.configure m0 h0 p0 u0 pw0 hn0)
        h1 p1 u1 pw1 "").password = pw1 ∧
    (MQTTClient.configure (MQTTClient.configure m0 h0 p0 u0 pw0 hn0)
        h1 p1 u1 pw1 "").hostname = "" := by
  have hs : sanitize_identifier hn0 ≠ "" := sanitize_identifier_ne_empty hn0 hne
  unfold MQTTClient.configure
  simp [hne, hs]

/-- Witness for C10: configuring with hostname "Steam Deck" then reconfiguring
with an empty hostname keeps the derived status topic. -/
theorem C10_configure_empty_hostname_keeps_status_topic_witness :
    (MQTTClient.configure (MQTTClient.configure ⟨false, false, "", 1883, "", "", "", ""⟩
        "broker" 1883 "" "" "Steam Deck") "other" 1884 "u" "p" "").status_topic
      = "steamdeck/steam_deck/status" := by
  have h := C10_configure_empty_hostname_keeps_status_topic
    ⟨false, false, "", 1883, "", "", "", ""⟩ "broker" 1883 "" "" "Steam Deck"
    "other" 1884 "u" "p" (by decide)
  rw [h.1, h.2.1]
  rfl

/-- C3: from any state, `game_started{app_id}` sets `is_running=true`, records
the given app id (last-writer-wins, even if a game was already running) and
clears `app_name`; `game_stopped` sets `is_running=false` and clears app id and
name; the sequence started{10} then stopped{10} from the connected default
plugin ends with `is_running=false, app_id=None`, and the intermediate publish
after started carries `is_running=true, app_id=10` and is not retained. -/
theorem C3_game_transitions (p : Plugin) (ts aid pr rt a2 : Option Int)
    (delay : DelayOutcome) (outcome : TransportOutcome) :
    (Plugin.ingest_event p ⟨some "game_started", ts, aid, pr, rt⟩ delay outcome).1.game_state
      = ⟨true, aid, none⟩ ∧
    (Plugin.ingest_event p ⟨some "game_stopped", ts, a2, pr, rt⟩ delay outcome).1.game_state
      = ⟨false, none, none⟩ ∧
    (Plugin.ingest_event examplePlugin ⟨some "game_started", none, some 10, none, none⟩
        DelayOutcome.elapsed (TransportOutcome.ok 0)).2
      = [⟨"steamdeck/steamdeck/telemetry/game",
          Payload.gameJson ⟨none, some 10, true⟩, false, 0⟩] ∧
    (Plugin.ingest_event
        (Plugin.ingest_event examplePlugin
          ⟨some "game_started", none, some 10, none, none⟩
          DelayOutcome.elapsed (TransportOutcome.ok 0)).1
        ⟨some "game_stopped", none, some 10, none, none⟩
        DelayOutcome.elapsed (TransportOutcome.ok 0)).1.game_state.is_running = false ∧
    (Plugin.ingest_event
        (Plugin.ingest_event examplePlugin
          ⟨some "game_started", none, some 10, none, none⟩
          DelayOutcome.elapsed (TransportOutcome.ok 0)).1
        ⟨some "game_stopped", none, some 10, none, none⟩
        DelayOutcome.elapsed (TransportOutcome.ok 0)).1.game_state.app_id = none := by
  refine ⟨rfl, rfl, rfl, rfl, rfl⟩

theorem publish_game_state_eq (p : Plugin) (outcome : TransportOutcome)
    (hcl : p.mqtt_client.client = true) (hco : p.mqtt_client.connected = true)
    (hd : p.hasDiscovery = true) (he : (p.enabled_sensors.game).getD true = true) :
    Plugin.publish_game_state p outcome =
      [⟨"steamdeck/" ++ p.hostname ++ "/telemetry/game",
        Payload.gameJson (Plugin.get_game_state p), false, 0⟩] := by
  unfold Plugin.publish_game_state HomeAssistantDiscovery.publish_state MQTTClient.publish
  simp only [hcl, hco, hd, he]
  cases outcome <;>
    simp [transport_publish, String.append_assoc,
      show ("/telemetry/" : String) ++ "game" = "/telemetry/game" from rfl]

theorem publish_download_state_eq (p : Plugin) (outcome : TransportOutcome)
    (hcl : p.mqtt_client.client = true) (hco : p.mqtt_client.connected = true)
    (hd : p.hasDiscovery = true) (he : (p.enabled_sensors.download).getD true = true) :
    Plugin.publish_download_state p outcome =
      [⟨"steamdeck/" ++ p.hostname ++ "/telemetry/download",
        Payload.downloadJson (Plugin.get_download_state p), false, 0⟩] := by
  unfold Plugin.publish_download_state HomeAssistantDiscovery.publish_state MQTTClient.publish
  simp only [hcl, hco, hd, he]
  cases outcome <;>
    simp [transport_publish, String.append_assoc,
      show ("/telemetry/" : String) ++ "download" = "/telemetry/download" from rfl]

/-- C2: handling `download_completed` first sets `downloading=false,
progress=100, rate=0` and publishes the download state exactly once (the single
wire message carries those values); if the grace delay elapses uncancelled the
progress, rate and app id are cleared to absent with no further publish; if the
delay is cancelled the clear is skipped (state keeps progress=100, rate=0 and
the prior app id) and no fault propagates, the wire trace being identical.
The sequence started{5}, progress{40,12}, completed{5} from the connected
default plugin ends, after the delay, with progress, rate and app id absent. -/
theorem C2_download_completed (p : Plugin) (ts aid pr rt : Option Int)
    (outcome : TransportOutcome)
    (hcl : p.mqtt_client.client = true) (hco : p.mqtt_client.connected = true)
    (hd : p.hasDiscovery = true)
    (he : (p.enabled_sensors.download).getD true = true) :
    (Plugin.ingest_event p ⟨some "download_completed", ts, aid, pr, rt⟩
        DelayOutcome.elapsed outcome).2
      = [⟨"steamdeck/" ++ p.hostname ++ "/telemetry/download",
          Payload.downloadJson ⟨false, some 100, some 0, none⟩, false, 0⟩] ∧
    (Plugin.ingest_event p ⟨some "download_completed", ts, aid, pr, rt⟩
        DelayOutcome.elapsed outcome).1.download_state
      = ⟨false, none, none, none⟩ ∧
    (Plugin.ingest_event p ⟨some "download_completed", ts, aid, pr, rt⟩
        DelayOutcome.cancelled outcome).1.download_state
      = ⟨false, some 100, some 0, p.download_state.app_id⟩ ∧
    (Plugin.ingest_event p ⟨some "download_completed", ts, aid, pr, rt⟩
        DelayOutcome.cancelled outcome).2
      = (Plugin.ingest_event p ⟨some "download_completed", ts, aid, pr, rt⟩
          DelayOutcome.elapsed outcome).2 ∧
    (Plugin.ingest_event
        (Plugin.ingest_event
          (Plugin.ingest_event examplePlugin
            ⟨some "download_started", none, some 5, none, none⟩
            DelayOutcome.elapsed (TransportOutcome.ok 0)).1
          ⟨some "download_progress", none, none, some 40, some 12⟩
          DelayOutcome.elapsed (TransportOutcome.ok 0)).1
        ⟨some "download_completed", none, some 5, none, none⟩
        DelayOutcome.elapsed (TransportOutcome.ok 0)).1.download_state
      = ⟨false, none, none, none⟩ ∧
    (Plugin.ingest_event
        (Plugin.ingest_event examplePlugin
          ⟨some "download_started", none, some 5, none, none⟩
          DelayOutcome.elapsed (TransportOutcome.ok 0)).1
        ⟨some "download_progress", none, none, some 40, some 12⟩
        DelayOutcome.elapsed (TransportOutcome.ok 0)).1.download_state
      = ⟨true, some 40, some 12, some 5⟩ := by
  have hpair : Plugin.ingest_event p ⟨some "download_completed", ts, aid, pr, rt⟩
      DelayOutcome.elapsed outcome
      = ({ p with download_state := ⟨false, none, none, none⟩ },
         Plugin.publish_download_state
           { p with download_state :=
             { p.download_state with downloading := false, progress := some 100,
                                     rate_mbps := some 0 } } outcome) := rfl
  refine ⟨?_, rfl, rfl, rfl, rfl, rfl⟩
  rw [hpair, publish_download_state_eq
    { p with download_state :=
      { p.download_state with downloading := false, progress := some 100,
                              rate_mbps := some 0 } } outcome hcl hco hd he]
  rfl

/-- Witness for C2: completing a download on the connected default plugin with
an accepting transport clears the download fields after the elapsed delay. -/
theorem C2_download_completed_witness :
    (Plugin.ingest_event examplePlugin ⟨some "download_completed", none, some 5, none, none⟩
        DelayOutcome.elapsed (TransportOutcome.ok 0)).1.download_state
      = ⟨false, none, none, none⟩ := by
  exact (C2_download_completed examplePlugin none (some 5) none none
    (TransportOutcome.ok 0) rfl rfl rfl rfl).2.1

/-- The `system_shutting_down` event dict. -/
def shutdownEvent : Event := ⟨some "system_shutting_down", none, none, none, none⟩

/-- The connected default plugin while a game (app id 10) is running and a
download (app id 5, progress 40, rate 12) is active. -/
def c1Start : Plugin :=
  { examplePlugin with game_state := ⟨true, some 10, none⟩,
                       download_state := ⟨true, some 40, some 12, some 5⟩ }

/-- Counterexample to C1: with a game running and a download at progress 40
(client connected, both categories enabled), `system_shutting_down` leaves the
download progress at 40 — the claim that the handler clears the download
progress/rate/app_id to absent is false on the code, which only sets
`downloading = False` (src/main.py:1069). -/
theorem C1_counterexample :
    (Plugin.ingest_event c1Start shutdownEvent DelayOutcome.elapsed
      (TransportOutcome.ok 0)).1.download_state.progress ≠ none := by
  intro h
  exact Option.noConfusion h

/-- C1 (amended): for a connected client with discovery initialized, both
categories enabled, a game running and a download active,
`system_shutting_down` forces `game.is_running=false` and clears
`game.app_id`, and sets `download.downloading=false` while the download
progress, rate and app id retain their prior values (they are not cleared),
emitting exactly one state publish per sub-state (game first, then download). -/
theorem C1_amended_shutdown (p : Plugin) (delay : DelayOutcome)
    (outcome : TransportOutcome)
    (hcl : p.mqtt_client.client = true) (hco : p.mqtt_client.connected = true)
    (hd : p.hasDiscovery = true)
    (heg : (p.enabled_sensors.game).getD true = true)
    (hed : (p.enabled_sensors.download).getD true = true)
    (_hrun : p.game_state.is_running = true)
    (_hdl : p.download_state.downloading = true) :
    (Plugin.ingest_event p shutdownEvent delay outcome).1.game_state
      = ⟨false, none, p.game_state.app_name⟩ ∧
    (Plugin.ingest_event p shutdownEvent delay outcome).1.download_state
      = ⟨false, p.download_state.progress, p.download_state.rate_mbps,
         p.download_state.app_id⟩ ∧
    (Plugin.ingest_event p shutdownEvent delay outcome).2
      = [⟨"steamdeck/" ++ p.hostname ++ "/telemetry/game",
          Payload.gameJson ⟨p.game_state.app_name, none, false⟩, false, 0⟩,
         ⟨"steamdeck/" ++ p.hostname ++ "/telemetry/download",
          Payload.downloadJson ⟨false, p.download_state.progress,
            p.download_state.rate_mbps, none⟩, false, 0⟩] := by
  have hpair : Plugin.ingest_event p shutdownEvent delay outcome
      = ({ p with
            game_state := { p.game_state with is_running := false, app_id := none },
            download_state := { p.download_state with downloading := false } },
          Plugin.publish_game_state
            { p with
              game_state := { p.game_state with is_running := false, app_id := none },
              download_state := { p.download_state with downloading := false } } outcome
          ++ Plugin.publish_download_state
            { p with
              game_state := { p.game_state with is_running := false, app_id := none },
              download_state := { p.download_state with downloading := false } } outcome) := rfl
  refine ⟨rfl, rfl, ?_⟩
  rw [hpair,
    publish_game_state_eq
      { p with
        game_state := { p.game_state with is_running := false, app_id := none },
        download_state := { p.download_state with downloading := false } }
      outcome hcl hco hd heg,
    publish_download_state_eq
      { p with
        game_state := { p.game_state with is_running := false, app_id := none },
        download_state := { p.download_state with downloading := false } }
      outcome hcl hco hd hed]
  rfl

/-- Witness for C1 (amended): at the concrete running/downloading state the
shutdown handler keeps the download progress, rate and app id values. -/
theorem C1_amended_shutdown_witness :
    (Plugin.ingest_event c1Start shutdownEvent DelayOutcome.elapsed
      (TransportOutcome.ok 0)).1.download_state = ⟨false, some 40, some 12, some 5⟩ := by
  exact (C1_amended_shutdown c1Start DelayOutcome.elapsed (TransportOutcome.ok 0)
    rfl rfl rfl rfl rfl rfl rfl).2.1

theorem publish_raises_eq_rejected (m : MQTTClient) (topic : String) (pl : Payload)
    (r : Bool) (q : Nat) :
    MQTTClient.publish m TransportOutcome.raises topic pl r q
      = MQTTClient.publish m (TransportOutcome.ok 1) topic pl r q := by
  unfold MQTTClient.publish transport_publish
  by_cases hg : m.client && m.connected <;> simp [hg]

theorem publish_game_state_raises (p : Plugin) :
    Plugin.publish_game_state p TransportOutcome.raises
      = Plugin.publish_game_state p (TransportOutcome.ok 1) := by
  unfold Plugin.publish_game_state HomeAssistantDiscovery.publish_state
  simp only [publish_raises_eq_rejected]

theorem publish_download_state_raises (p : Plugin) :
    Plugin.publish_download_state p TransportOutcome.raises
      = Plugin.publish_download_state p (TransportOutcome.ok 1) := by
  unfold Plugin.publish_download_state HomeAssistantDiscovery.publish_state
  simp only [publish_raises_eq_rejected]

theorem handle_download_completed_raises (p : Plugin) (ev : Event) (delay : DelayOutcome) :
    Plugin.handle_download_completed p ev delay TransportOutcome.raises
      = Plugin.handle_download_completed p ev delay (TransportOutcome.ok 1) := by
  unfold Plugin.handle_download_completed
  cases delay <;> simp only [publish_download_state_raises]

theorem handle_system_suspending_raises (p : Plugin) (ev : Event) :
    Plugin.handle_system_suspending p ev TransportOutcome.raises
      = Plugin.handle_system_suspending p ev (TransportOutcome.ok 1) := by
  unfold Plugin.handle_system_suspending
  by_cases h1 : p.game_state.is_running <;>
    by_cases h2 : p.download_state.downloading <;>
      simp [h1, h2, publish_game_state_raises, publish_download_state_raises]

theorem ingest_event_raises_eq (p : Plugin) (ev : Event) (delay : DelayOutcome) :
    Plugin.ingest_event p ev delay TransportOutcome.raises
      = Plugin.ingest_event p ev delay (TransportOutcome.ok 1) := by
  unfold Plugin.ingest_event
  split_ifs
  · simp only [Plugin.handle_game_started, publish_game_state_raises]
  · simp only [Plugin.handle_game_stopped, publish_game_state_raises]
  · simp only [Plugin.handle_download_started, publish_download_state_raises]
  · simp only [Plugin.handle_download_progress, publish_download_state_raises]
  · exact handle_download_completed_raises p ev delay
  · simp only [Plugin.handle_download_stopped, publish_download_state_raises]
  · exact handle_system_suspending_raises p ev
  · rfl
  · simp only [Plugin.handle_system_shutting_down, publish_game_state_raises,
      publish_download_state_raises]
  · rfl

theorem ingest_event_unknown (p : Plugin) (ev : Event) (delay : DelayOutcome)
    (outcome : TransportOutcome)
    (h : ∀ s, ev.type = some s → s ∉ recognized_event_types) :
    Plugin.ingest_event p ev delay outcome = (p, []) := by
  have hne : ∀ lit, lit ∈ recognized_event_types → ev.type ≠ some lit := by
    intro lit hlit he
    exact h lit he hlit
  unfold Plugin.ingest_event
  rw [if_neg (hne "game_started" (by simp [recognized_event_types])),
      if_neg (hne "game_stopped" (by simp [recognized_event_types])),
      if_neg (hne "download_started" (by simp [recognized_event_types])),
      if_neg (hne "download_progress" (by simp [recognized_event_types])),
      if_neg (hne "download_completed" (by simp [recognized_event_types])),
      if_neg (hne "download_stopped" (by simp [recognized_event_types])),
      if_neg (hne "system_suspending" (by simp [recognized_event_types])),
      if_neg (hne "system_resuming" (by simp [recognized_event_types])),
      if_neg (hne "system_shutting_down" (by simp [recognized_event_types]))]

/-- C9: an event whose type tag is not one of the nine recognized types is
dropped by `ingest_event` with the whole plugin state unchanged and no wire
traffic; and for every event, a transport that raises mid-publish is
indistinguishable from one that merely rejects (return code 1) — the exception
is converted inside the publish wrapper and never propagates out of
`ingest_event`, even though the raw transport call really does raise. -/
theorem C9_unknown_dropped_no_exception (p : Plugin) (ev : Event)
    (delay : DelayOutcome) (outcome : TransportOutcome)
    (h : ∀ s, ev.type = some s → s ∉ recognized_event_types) :
    Plugin.ingest_event p ev delay outcome = (p, []) ∧
    (∀ (ev2 : Event) (d2 : DelayOutcome),
      Plugin.ingest_event p ev2 d2 TransportOutcome.raises
        = Plugin.ingest_event p ev2 d2 (TransportOutcome.ok 1)) ∧
    (transport_publish TransportOutcome.raises).isOk = false := by
  exact ⟨ingest_event_unknown p ev delay outcome h,
    fun ev2 d2 => ingest_event_raises_eq p ev2 d2, rfl⟩

/-- Witness for C9: a "bogus_event" type is dropped with no state change and
no wire traffic. -/
theorem C9_unknown_dropped_no_exception_witness :
    Plugin.ingest_event examplePlugin ⟨some "bogus_event", none, none, none, none⟩
      DelayOutcome.elapsed (TransportOutcome.ok 0) = (examplePlugin, []) := by
  refine (C9_unknown_dropped_no_exception examplePlugin
    ⟨some "bogus_event", none, none, none, none⟩ DelayOutcome.elapsed
    (TransportOutcome.ok 0) ?_).1
  intro s hs
  have h : s = "bogus_event" := (Option.some.inj hs).symm
  subst h
  decide

theorem register_sensors_decomp (p : Plugin) (hd : p.hasDiscovery = true) :
    Plugin.register_sensors p
      = HomeAssistantDiscovery.register_status_sensor p.mqtt_client.status_topic
        ++ (if (p.enabled_sensors.battery).getD true then
              HomeAssistantDiscovery.register_battery_sensors else [])
        ++ (if (p.enabled_sensors.disk).getD true then
              HomeAssistantDiscovery.register_disk_sensors else [])
        ++ (if (p.enabled_sensors.network).getD true then
              HomeAssistantDiscovery.register_network_sensors else [])
        ++ (if (p.enabled_sensors.game).getD true then
              HomeAssistantDiscovery.register_game_sensors else [])
        ++ (if (p.enabled_sensors.download).getD true then
              HomeAssistantDiscovery.register_download_sensors else []) := by
  unfold Plugin.register_sensors
  simp [hd]

/-- C6: game and download state publishes are each gated by the category's
enabled flag and the connected flag — if either is false the publish is
silently skipped (empty wire trace) while the in-memory transition still
applies; disabling "game" suppresses game sensor registration while the other
categories' registrations are untouched, and leaves download publishes
unaffected; a missing enabled-sensors key behaves as enabled. -/
theorem C6_publish_gating (p : Plugin) (ts aid pr rt : Option Int)
    (delay : DelayOutcome) (outcome : TransportOutcome) (g' : Option Bool) :
    ((p.enabled_sensors.game.getD true = false ∨ p.mqtt_client.connected = false) →
      Plugin.publish_game_state p outcome = []) ∧
    ((p.enabled_sensors.download.getD true = false ∨ p.mqtt_client.connected = false) →
      Plugin.publish_download_state p outcome = []) ∧
    (p.mqtt_client.connected = false →
      Plugin.ingest_event p ⟨some "game_started", ts, aid, pr, rt⟩ delay outcome
        = ({ p with game_state := ⟨true, aid, none⟩ }, [])) ∧
    (p.enabled_sensors.game.getD true = false →
      Plugin.ingest_event p ⟨some "game_started", ts, aid, pr, rt⟩ delay outcome
        = ({ p with game_state := ⟨true, aid, none⟩ }, [])) ∧
    (p.enabled_sensors.download.getD true = false →
      Plugin.ingest_event p ⟨some "download_progress", ts, aid, pr, rt⟩ delay outcome
        = ({ p with download_state :=
            { p.download_state with downloading := true, progress := pr,
                                    rate_mbps := rt } }, [])) ∧
    (p.hasDiscovery = true →
      Plugin.register_sensors
          { p with enabled_sensors := { p.enabled_sensors with game := some false } }
        = HomeAssistantDiscovery.register_status_sensor p.mqtt_client.status_topic
          ++ (if (p.enabled_sensors.battery).getD true then
                HomeAssistantDiscovery.register_battery_sensors else [])
          ++ (if (p.enabled_sensors.disk).getD true then
                HomeAssistantDiscovery.register_disk_sensors else [])
          ++ (if (p.enabled_sensors.network).getD true then
                HomeAssistantDiscovery.register_network_sensors else [])
          ++ (if (p.enabled_sensors.download).getD true then
                HomeAssistantDiscovery.register_download_sensors else [])) ∧
    (Plugin.publish_download_state
        { p with enabled_sensors := { p.enabled_sensors with game := g' } } outcome
      = Plugin.publish_download_state p outcome) ∧
    (Plugin.publish_game_state
        { p with enabled_sensors := { p.enabled_sensors with game := none } } outcome
      = Plugin.publish_game_state
        { p with enabled_sensors := { p.enabled_sensors with game := some true } } outcome) := by
  refine ⟨?_, ?_, ?_, ?_, ?_, ?_, rfl, rfl⟩
  · rintro (h | h) <;> simp [Plugin.publish_game_state, h]
  · rintro (h | h) <;> simp [Plugin.publish_download_state, h]
  · intro h
    have hr : Plugin.ingest_event p ⟨some "game_started", ts, aid, pr, rt⟩ delay outcome
        = ({ p with game_state := ⟨true, aid, none⟩ },
           Plugin.publish_game_state { p with game_state := ⟨true, aid, none⟩ } outcome) := rfl
    rw [hr]
    simp [Plugin.publish_game_state, h]
  · intro h
    have hr : Plugin.ingest_event p ⟨some "game_started", ts, aid, pr, rt⟩ delay outcome
        = ({ p with game_state := ⟨true, aid, none⟩ },
           Plugin.publish_game_state { p with game_state := ⟨true, aid, none⟩ } outcome) := rfl
    rw [hr]
    simp [Plugin.publish_game_state, h]
  · intro h
    have hr : Plugin.ingest_event p ⟨some "download_progress", ts, aid, pr, rt⟩ delay outcome
        = ({ p with download_state :=
              { p.download_state with downloading := true, progress := pr,
                                      rate_mbps := rt } },
           Plugin.publish_download_state
             { p with download_state :=
               { p.download_state with downloading := true, progress := pr,
                                       rate_mbps := rt } } outcome) := rfl
    rw [hr]
    simp [Plugin.publish_download_state, h]
  · intro hd
    have hdec := register_sensors_decomp
      { p with enabled_sensors := { p.enabled_sensors with game := some false } } hd
    rw [hdec]
    simp

/-- Witness for C6: on a disconnected plugin, game_started still updates the
in-memory game state while no wire traffic is produced. -/
theorem C6_publish_gating_witness :
    Plugin.ingest_event
        { examplePlugin with
          mqtt_client := { examplePlugin.mqtt_client with connected := false } }
        ⟨some "game_started", none, some 7, none, none⟩
        DelayOutcome.elapsed (TransportOutcome.ok 0)
      = ({ examplePlugin with
            mqtt_client := { examplePlugin.mqtt_client with connected := false },
            game_state := ⟨true, some 7, none⟩ }, []) := by
  exact (C6_publish_gating
    { examplePlugin with
      mqtt_client := { examplePlugin.mqtt_client with connected := false } }
    none (some 7) none none DelayOutcome.elapsed (TransportOutcome.ok 0) none).2.2.1 rfl

/-- C7: sensor registration puts the status/presence sensor first, regardless
of per-category enablement; the status sensor is skipped exactly when no
status topic is configured, in which case the other categories still register;
and the categories follow in the order battery, disk, network, game, download,
each present exactly when its enabled flag (defaulting to enabled) holds. -/
theorem C7_registration_order (p : Plugin) (e' : EnabledSensors)
    (hd : p.hasDiscovery = true) :
    Plugin.register_sensors p
      = HomeAssistantDiscovery.register_status_sensor p.mqtt_client.status_topic
        ++ (if (p.enabled_sensors.battery).getD true then
              HomeAssistantDiscovery.register_battery_sensors else [])
        ++ (if (p.enabled_sensors.disk).getD true then
              HomeAssistantDiscovery.register_disk_sensors else [])
        ++ (if (p.enabled_sensors.network).getD true then
              HomeAssistantDiscovery.register_network_sensors else [])
        ++ (if (p.enabled_sensors.game).getD true then
              HomeAssistantDiscovery.register_game_sensors else [])
        ++ (if (p.enabled_sensors.download).getD true then
              HomeAssistantDiscovery.register_download_sensors else []) ∧
    (p.mqtt_client.status_topic = "" →
      HomeAssistantDiscovery.register_status_sensor p.mqtt_client.status_topic = []) ∧
    (p.mqtt_client.status_topic ≠ "" →
      HomeAssistantDiscovery.register_status_sensor p.mqtt_client.status_topic
        = [⟨"binary_sensor", "status"⟩]) ∧
    (Plugin.register_sensors { p with enabled_sensors := e' }).take
        (HomeAssistantDiscovery.register_status_sensor p.mqtt_client.status_topic).length
      = HomeAssistantDiscovery.register_status_sensor p.mqtt_client.status_topic := by
  refine ⟨register_sensors_decomp p hd, ?_, ?_, ?_⟩
  · intro h
    simp [HomeAssistantDiscovery.register_status_sensor, h]
  · intro h
    simp [HomeAssistantDiscovery.register_status_sensor, h]
  · rw [register_sensors_decomp { p with enabled_sensors := e' } hd]
    simp only [List.append_assoc]
    exact List.take_left _ _

/-- Witness for C7: with all categories enabled (keys missing, defaulting to
enabled) and a configured status topic, registration is the status sensor
followed by the five category blocks in order. -/
theorem C7_registration_order_witness :
    Plugin.register_sensors examplePlugin
      = [⟨"binary_sensor", "status"⟩]
        ++ HomeAssistantDiscovery.register_battery_sensors
        ++ HomeAssistantDiscovery.register_disk_sensors
        ++ HomeAssistantDiscovery.register_network_sensors
        ++ HomeAssistantDiscovery.register_game_sensors
        ++ HomeAssistantDiscovery.register_download_sensors := by
  have h := (C7_registration_order examplePlugin ⟨none, none, none, none, none⟩ rfl).1
  rw [h]
  rfl
